import Mathlib

/-!
Verification development for the Lunaris privacy-analysis service.

The definitions below are a shallow embedding of the backend source:
`backend/services/crawler.js` (URL validation, SSRF guard, navigation-failure
detection), `backend/services/analyzer.js` (tracker detection, security
signals, privacy score), the cookie deep-analysis service, the queue worker
(`processScanJob` and its failure handler), and the admission route
(`routes/analyze.js`).  JavaScript strings are modelled as Lean `String`,
JS numbers occurring in these code paths as `Int`/`Nat`, JS `null`/`undefined`
as `Option`, and thrown exceptions as `Except`.  Wall-clock reads
(`Date.now()`, `new Date().toISOString()`) are modelled as explicit
parameters.  Regular-expression tests are modelled by equivalent string
predicates, documented at each definition.
-/

/-! ## String helpers (models of JS string primitives, on `List Char`) -/

/-- Model of JS `String.prototype.startsWith`: `listIsPrefix p s` is true when
the character list `p` is an initial segment of `s`. -/
def listIsPfx : List Char → List Char → Bool
  | [], _ => true
  | _ :: _, [] => false
  | p :: ps, c :: cs => p = c && listIsPfx ps cs

/-- Model of JS `String.prototype.includes`: true when `pat` occurs as a
contiguous substring of `s`. -/
def listHasSub : List Char → List Char → Bool
  | [], pat => pat.isEmpty
  | c :: rest, pat => listIsPfx pat (c :: rest) || listHasSub rest pat

/-- `startsWith` on strings (model of JS `startsWith`). -/
def strStarts (s p : String) : Bool :=
  listIsPfx p.data s.data

/-- `includes` on strings (model of JS `includes`). -/
def strHas (s pat : String) : Bool :=
  listHasSub s.data pat.data

/-- `endsWith` on strings (model of JS `endsWith`). -/
def strEnds (s p : String) : Bool :=
  listIsPfx p.data.reverse s.data.reverse

/-- Lower-casing a string character-wise (model of JS `toLowerCase` on the
ASCII inputs these code paths compare). -/
def strLower (s : String) : String :=
  ⟨s.data.map Char.toLower⟩

/-- Model of JS `String.prototype.trim` (ASCII whitespace). -/
def jsTrim (s : String) : String :=
  ⟨((s.data.dropWhile Char.isWhitespace).reverse.dropWhile Char.isWhitespace).reverse⟩

/-- Model of JS `String.prototype.slice(0, n)` for `n ≥ 0`. -/
def jsSlice (s : String) (n : Nat) : String :=
  ⟨s.data.take n⟩

/-- Remove the first occurrence of `pat` from `s`
(model of JS `String.prototype.replace(pat, '')` with a string pattern). -/
def listDropFirstOcc : List Char → List Char → List Char
  | [], _ => []
  | c :: rest, pat =>
    if listIsPfx pat (c :: rest) then List.drop (pat.length - 1) rest
    else c :: listDropFirstOcc rest pat

/-- `replace(pat, '')` on strings, first occurrence only. Note: when `pat`
is empty JS inserts nothing and returns the string unchanged, which the
`pat.length - 1 = 0` drop also yields only for nonempty heads; the sole use
site passes the nonempty pattern "www.". -/
def strDropFirst (s pat : String) : String :=
  if pat.data.isEmpty then s else ⟨listDropFirstOcc s.data pat.data⟩

/-- First-occurrence-preserving deduplication
(model of `[...new Set(xs)]` in JS). -/
def dedupKeepOrder (xs : List String) : List String :=
  (xs.foldl (fun acc x => if acc.contains x then acc else acc ++ [ x ]) [])

/-! ## Mini URL parser

Model of the WHATWG `new URL(...)` parser as used by the source: scheme,
host (lower-cased), port (default ports elided) and the remainder
(path, query, fragment) are recovered from absolute `scheme://host[:port]...`
strings.  The model is restricted to authorities without userinfo and to
hosts over alphanumeric/`-`/`.`/`_` characters; bracketed IPv6 hosts and
percent-encoded hosts are treated as unparseable.  All URLs the verified
claims quantify over are of the modelled shape. -/

structure ParsedUrl where
  scheme : String
  host : String
  port : String
  rest : String
deriving Repr, DecidableEq

/-- Split `scheme://` from the front: returns the scheme letters and the
characters after `://`. -/
def splitScheme : List Char → Option (List Char × List Char)
  | [] => none
  | c :: rest =>
    if c = ':' then
      match rest with
      | '/' :: '/' :: r => some ([], r)
      | _ => none
    else if c.isAlpha then
      (splitScheme rest).map (fun p => (c :: p.1, p.2))
    else none

/-- Characters the modelled parser accepts inside a hostname. -/
def allowedHostChar (c : Char) : Bool :=
  c.isAlphanum || c = '-' || c = '.' || c = '_'

/-- Split `host[:port]` out of an authority; fails on userinfo, on an empty
host, on host characters outside the modelled set, and on non-digit ports. -/
def parseAuthority (auth : List Char) : Option (List Char × List Char) :=
  if auth.contains '@' then none
  else
    let host := auth.takeWhile (fun c => !(c = ':' : Bool))
    let rest := auth.drop host.length
    let port := match rest with
      | ':' :: p => some p
      | [] => some []
      | _ => none
    match port with
    | none => none
    | some p =>
      if host.isEmpty then none
      else if !(host.all allowedHostChar) then none
      else if !(p.all Char.isDigit) then none
      else some (host.map Char.toLower, p)

/-- The modelled `new URL(s)`. -/
def parseUrlChars (l : List Char) : Option ParsedUrl :=
  match splitScheme l with
  | none => none
  | some (sch, rest) =>
    if sch.isEmpty then none
    else
      let auth := rest.takeWhile (fun c => !(c = '/' || c = '?' || c = '#'))
      let tail := rest.drop auth.length
      match parseAuthority auth with
      | none => none
      | some (host, port) =>
        let scheme : String := ⟨sch.map Char.toLower⟩
        let port :=
          if (scheme = "https" && port = [ '4', '4', '3' ])
              || (scheme = "http" && port = [ '8', '0' ]) then []
          else port
        some { scheme := scheme, host := ⟨host⟩, port := ⟨port⟩, rest := ⟨tail⟩ }

def parseUrl (s : String) : Option ParsedUrl :=
  parseUrlChars s.data

/-- `href` serialisation of a parsed URL (model of `URL.prototype.href`):
default path `/` is inserted when the remainder is empty or starts with
`?`/`#`, as the WHATWG serialiser does. -/
def ParsedUrl.href (u : ParsedUrl) : String :=
  u.scheme ++ "://" ++ u.host ++
    (if u.port = "" then "" else ":" ++ u.port) ++
    (if u.rest = "" then "/"
     else if strStarts u.rest "/" then u.rest
     else "/" ++ u.rest)

/-- Hostname of a URL string, `none` when unparseable
(model of `new URL(s).hostname` inside `try`/`catch`). -/
def urlHostname (s : String) : Option String :=
  (parseUrl s).map (fun u => u.host)

/-! ## URL Validator (`normalizeUrl`, crawler.js lines 49-96) -/

inductive UrlError where
  | URL_MISSING
  | URL_EMPTY
  | URL_MALFORMED
  | URL_INVALID_PROTOCOL
  | URL_INVALID_HOSTNAME
  | URL_NO_TLD
  | URL_RAW_IP
deriving Repr, DecidableEq

/-- Model of the regex test `/^https?:\/\//i` in `normalizeUrl`. -/
def hasHttpScheme (s : String) : Bool :=
  strStarts (strLower s) "http://" || strStarts (strLower s) "https://"

/-- Model of Node `net.isIP` on URL hostnames: a dotted-quad IPv4 literal
(four decimal components, no leading zeros, each at most 255).  URL hostnames
never contain `:` in the modelled parser, and Node returns `0` for bracketed
IPv6 hostnames such as `[::1]`, so the IPv4 test is the reachable part. -/
def splitOnDot : List Char → List (List Char)
  | [] => [ [] ]
  | c :: rest =>
    if c = '.' then [] :: splitOnDot rest
    else match splitOnDot rest with
      | [] => [ [ c ] ]
      | p :: ps => (c :: p) :: ps

def digitsToNat (p : List Char) : Nat :=
  p.foldl (fun n c => n * 10 + (c.toNat - ('0').toNat)) 0

def isIpv4Part (p : List Char) : Bool :=
  !p.isEmpty && p.all Char.isDigit && p.length ≤ 3 &&
    (p.length = 1 || !(p.headD 'x' = '0')) &&
    digitsToNat p ≤ 255

def isIpString (host : String) : Bool :=
  let parts := splitOnDot host.data
  parts.length = 4 && parts.all isIpv4Part

/-- Shallow embedding of `normalizeUrl(raw)` (crawler.js lines 49-96).
`raw = none` models a missing/non-string argument; a present empty string is
also rejected as `URL_MISSING` because `!raw` is true for `''` in JS. -/
def normalizeUrl (raw : Option String) : Except UrlError String :=
  match raw with
  | none => .error .URL_MISSING
  | some r =>
    if r = "" then .error .URL_MISSING
    else
      let input := jsTrim r
      if input = "" then .error .URL_EMPTY
      else
        let input := if hasHttpScheme input then input else "https://" ++ input
        match parseUrl input with
        | none => .error .URL_MALFORMED
        | some parsed =>
          if !(parsed.scheme = "http" || parsed.scheme = "https") then
            .error .URL_INVALID_PROTOCOL
          else if parsed.host = "" then .error .URL_INVALID_HOSTNAME
          else if !(strHas parsed.host ".") then .error .URL_NO_TLD
          else if isIpString parsed.host then .error .URL_RAW_IP
          else .ok parsed.href

/-! ## SSRF Guard (`assertNotPrivate`, crawler.js lines 132-175) -/

inductive SsrfError where
  | SSRF_BLOCKED_HOSTNAME
  | SSRF_BLOCKED_PATTERN
  | SSRF_PRIVATE_IP
deriving Repr, DecidableEq

/-- `BLOCKED_HOSTNAMES` (crawler.js lines 145-150). -/
def BLOCKED_HOSTNAMES : List String :=
  [ "localhost", "0.0.0.0", "metadata.google.internal", "169.254.169.254" ]

/-- `BLOCKED_HOSTNAME_PATTERNS` (crawler.js lines 152-158): the regexes
`/\.local$/i` … are end-of-string suffix tests, modelled case-insensitively
by lower-casing. -/
def BLOCKED_HOSTNAME_PATTERNS : List String :=
  [ ".local", ".internal", ".corp", ".lan", ".intranet" ]

def hexDigitChar (c : Char) : Bool :=
  c.isDigit || ('a' ≤ c && c ≤ 'f')

/-- Model of `/^fc[0-9a-f]{2}:/i` applied to the lower-cased address. -/
def fcPatternTest (a : String) : Bool :=
  match (strLower a).data with
  | 'f' :: 'c' :: c1 :: c2 :: ':' :: _ => hexDigitChar c1 && hexDigitChar c2
  | _ => false

/-- Model of `/^fe[89ab][0-9a-f]:/i` applied to the lower-cased address. -/
def fePatternTest (a : String) : Bool :=
  match (strLower a).data with
  | 'f' :: 'e' :: c1 :: c2 :: ':' :: _ =>
    (c1 = '8' || c1 = '9' || c1 = 'a' || c1 = 'b') && hexDigitChar c2
  | _ => false

/-- Second octets accepted by `/^172\.(1[6-9]|2\d|3[01])\./`: exactly the
decimal strings 16–31. -/
def octets172 : List String :=
  (List.range 16).map (fun i => toString (16 + i))

/-- Second octets accepted by `/^100\.(6[4-9]|[7-9]\d|1[01]\d|12[0-7])\./`:
exactly the decimal strings 64–127. -/
def octets100 : List String :=
  (List.range 64).map (fun i => toString (64 + i))

/-- `PRIVATE_IP_PATTERNS` (crawler.js lines 132-143) as a single predicate:
each regex of the source list is modelled by the matching string test. -/
def privateIpTest (a : String) : Bool :=
  strStarts a "127." || strStarts a "10." || strStarts a "192.168." ||
    octets172.any (fun t => strStarts a ("172." ++ t ++ ".")) ||
    strStarts a "169.254." ||
    octets100.any (fun t => strStarts a ("100." ++ t ++ ".")) ||
    strStarts a "0." || a = "::1" || fcPatternTest a || fePatternTest a

/-- Shallow embedding of `assertNotPrivate(hostname, resolvedAddress)`
(crawler.js lines 160-175): hostname literal check, then hostname suffix
patterns, then the resolved-address check, in source order. -/
def assertNotPrivate (hostname resolvedAddress : String) :
    Except SsrfError Unit :=
  if BLOCKED_HOSTNAMES.contains (strLower hostname) then
    .error .SSRF_BLOCKED_HOSTNAME
  else if BLOCKED_HOSTNAME_PATTERNS.any
      (fun p => strEnds (strLower hostname) p) then
    .error .SSRF_BLOCKED_PATTERN
  else if privateIpTest resolvedAddress then
    .error .SSRF_PRIVATE_IP
  else .ok ()

/-- Specification-side predicate (claim C2 wording): the textual IPv6
address lies in `fc00::/7`, i.e. its first byte is `0xfc` or `0xfd`. -/
def specInFc00Slash7 (a : String) : Bool :=
  match (strLower a).data with
  | 'f' :: c :: _ => c = 'c' || c = 'd'
  | _ => false

/-! ## Cookie deep analysis (cookieAnalysis.js) -/

/-- A cookie as delivered by the browser context
(`expires` in epoch seconds, `none` when the driver reports none;
`sameSite = none` models a missing attribute). -/
structure Cookie where
  name : String
  domain : String
  expires : Option Int
  secure : Bool
  httpOnly : Bool
  sameSite : Option String
deriving Repr, DecidableEq

structure CookieClass where
  company : String
  purpose : String
  risk : String
deriving Repr, DecidableEq

/-- `KNOWN_COOKIES` (cookieAnalysis.js lines 15-64), in insertion order. -/
def KNOWN_COOKIES : List (String × CookieClass) :=
  [ ("_ga", ⟨ "Google Analytics", "tracking", "medium" ⟩),
    ("_gid", ⟨ "Google Analytics", "tracking", "medium" ⟩),
    ("_gat", ⟨ "Google Analytics", "tracking", "low" ⟩),
    ("__utma", ⟨ "Google Analytics", "tracking", "medium" ⟩),
    ("__utmz", ⟨ "Google Analytics", "tracking", "medium" ⟩),
    ("_gcl_au", ⟨ "Google Ads", "tracking", "high" ⟩),
    ("NID", ⟨ "Google", "tracking", "high" ⟩),
    ("CONSENT", ⟨ "Google", "functional", "low" ⟩),
    ("SOCS", ⟨ "Google", "functional", "low" ⟩),
    ("_fbp", ⟨ "Meta Pixel", "tracking", "high" ⟩),
    ("_fbc", ⟨ "Meta Pixel", "tracking", "high" ⟩),
    ("fr", ⟨ "Facebook", "tracking", "high" ⟩),
    ("datr", ⟨ "Facebook", "tracking", "high" ⟩),
    ("sb", ⟨ "Facebook", "tracking", "high" ⟩),
    ("_hjid", ⟨ "Hotjar", "tracking", "medium" ⟩),
    ("_hjSessionUser", ⟨ "Hotjar", "tracking", "medium" ⟩),
    ("_hjSession", ⟨ "Hotjar", "tracking", "medium" ⟩),
    ("_hjAbsoluteSessionInProgress", ⟨ "Hotjar", "tracking", "low" ⟩),
    ("__hstc", ⟨ "HubSpot", "tracking", "medium" ⟩),
    ("__hssc", ⟨ "HubSpot", "tracking", "medium" ⟩),
    ("__hssrc", ⟨ "HubSpot", "tracking", "low" ⟩),
    ("hubspotutk", ⟨ "HubSpot", "tracking", "medium" ⟩),
    ("intercom-id", ⟨ "Intercom", "functional", "low" ⟩),
    ("intercom-session", ⟨ "Intercom", "functional", "low" ⟩),
    ("mp_", ⟨ "Mixpanel", "tracking", "medium" ⟩),
    ("__cf_bm", ⟨ "Cloudflare", "functional", "low" ⟩),
    ("cf_clearance", ⟨ "Cloudflare", "functional", "low" ⟩),
    ("sessionid", ⟨ "Site", "session", "low" ⟩),
    ("session", ⟨ "Site", "session", "low" ⟩),
    ("PHPSESSID", ⟨ "Site", "session", "low" ⟩),
    ("JSESSIONID", ⟨ "Site", "session", "low" ⟩),
    ("csrftoken", ⟨ "Site", "functional", "low" ⟩),
    ("XSRF-TOKEN", ⟨ "Site", "functional", "low" ⟩) ]

/-- `COOKIE_PATTERNS` (cookieAnalysis.js lines 67-72): each case-insensitive
regex alternation is modelled over the lower-cased name; `^_ga` is the only
anchored alternative, and `sess(ion)?` / `ads?` reduce to their mandatory
stems as substring tests. -/
def cookiePatternTest1 (n : String) : Bool :=
  strStarts n "_ga" || strHas n "analytics" || strHas n "track" ||
    strHas n "pixel" || strHas n "stat"

def cookiePatternTest2 (n : String) : Bool :=
  strHas n "sess" || strHas n "auth" || strHas n "login" ||
    strHas n "token" || strHas n "csrf"

def cookiePatternTest3 (n : String) : Bool :=
  strHas n "pref" || strHas n "settings" || strHas n "lang" ||
    strHas n "theme" || strHas n "consent"

def cookiePatternTest4 (n : String) : Bool :=
  strHas n "ad" || strHas n "campaign" || strHas n "utm" ||
    strHas n "click" || strHas n "refer"

/-- `classifyCookie(name)` (cookieAnalysis.js lines 77-89): known-name
prefix match first (case-sensitive, `name === key || name.startsWith(key)`),
then the regex patterns, else unknown. -/
def classifyCookie (name : String) : CookieClass :=
  match KNOWN_COOKIES.find? (fun kv => strStarts name kv.1) with
  | some kv => kv.2
  | none =>
    let n := strLower name
    if cookiePatternTest1 n then ⟨ "Unknown", "tracking", "medium" ⟩
    else if cookiePatternTest2 n then ⟨ "Unknown", "session", "low" ⟩
    else if cookiePatternTest3 n then ⟨ "Unknown", "functional", "low" ⟩
    else if cookiePatternTest4 n then ⟨ "Unknown", "tracking", "high" ⟩
    else ⟨ "Unknown", "unknown", "low" ⟩

/-- JS `Math.round(a / b)` for integer `a` and positive integer `b`
(round half toward positive infinity). -/
def jsRoundDiv (a : Int) (b : Int) : Int :=
  Int.fdiv (2 * a + b) (2 * b)

/-- `cookieLifetimeDays(expires)` (cookieAnalysis.js lines 95-99): `none`
for session cookies (`!expires || expires === -1`, so also for `0`);
otherwise `Math.round((expires - now) / 86400)` with `now = Date.now()/1000`
passed explicitly. -/
def cookieLifetimeDays (expires : Option Int) (now : Int) : Option Int :=
  match expires with
  | none => none
  | some e => if e = 0 || e = -1 then none else some (jsRoundDiv (e - now) 86400)

structure LifetimeInfo where
  label : String
  risk : String
  days : Option Int
deriving Repr, DecidableEq

/-- `lifetimeRisk(days)` (cookieAnalysis.js lines 109-116). -/
def lifetimeRisk (days : Option Int) : LifetimeInfo :=
  match days with
  | none => ⟨ "Session", "safe", none ⟩
  | some d =>
    if d < 0 then ⟨ "Expired", "safe", some d ⟩
    else if d < 30 then ⟨ toString d ++ "d", "low", some d ⟩
    else if d < 365 then ⟨ toString (jsRoundDiv d 30) ++ "mo", "medium", some d ⟩
    else if d < 730 then ⟨ toString (jsRoundDiv d 365) ++ "yr", "high", some d ⟩
    else ⟨ toString (jsRoundDiv d 365) ++ "yr", "critical", some d ⟩

/-- Claim-side ordering of lifetime buckets:
safe < low < medium < high < critical. -/
def riskIdx (r : String) : Nat :=
  if r = "safe" then 0
  else if r = "low" then 1
  else if r = "medium" then 2
  else if r = "high" then 3
  else if r = "critical" then 4
  else 5

/-- Claim-side order on optional lifetimes: a session cookie (`none`) is the
base case, below every concrete lifetime. -/
def lifetimeLe : Option Int → Option Int → Prop
  | none, _ => True
  | some _, none => False
  | some a, some b => a ≤ b

/-- `auditAttributes(cookie)` (cookieAnalysis.js lines 121-129). -/
def auditAttributes (c : Cookie) : List String :=
  (if !c.secure then [ "Missing Secure flag — can be sent over HTTP" ] else []) ++
    (if !c.httpOnly then [ "Missing HttpOnly — readable by JavaScript" ] else []) ++
    (if c.sameSite = none || c.sameSite = some "None" then
      [ "SameSite=None or missing — vulnerable to CSRF and cross-site tracking" ]
     else [])

/-- One analyzed cookie record (cookieAnalysis.js lines 151-163). -/
structure CookieRecord where
  name : String
  domain : String
  company : String
  purpose : String
  risk : String
  lifetime : LifetimeInfo
  isThirdParty : Bool
  isSecure : Bool
  isHttpOnly : Bool
  sameSite : String
  attributeIssues : List String
deriving Repr, DecidableEq

/-- Third-party test (cookieAnalysis.js line 144):
`cookie.domain && !cookie.domain.includes(pageHostname.replace('www.', ''))`;
an empty domain is falsy in JS, so it yields a first-party verdict. -/
def cookieIsThirdParty (c : Cookie) (pageHostname : String) : Bool :=
  !(c.domain = "") && !(strHas c.domain (strDropFirst pageHostname "www."))

/-- Analysis of one cookie (the body of the `cookies.map` callback,
cookieAnalysis.js lines 139-164). -/
def analyzeOneCookie (c : Cookie) (pageHostname : String) (now : Int) :
    CookieRecord :=
  let classification := classifyCookie c.name
  let days := cookieLifetimeDays c.expires now
  let lifetime := lifetimeRisk days
  let attributeIssues := auditAttributes c
  let isThirdParty := cookieIsThirdParty c pageHostname
  let finalRisk :=
    if lifetime.risk = "critical" && classification.purpose = "tracking" then "high"
    else if isThirdParty && classification.purpose = "tracking" then "high"
    else classification.risk
  { name := c.name
    domain := if c.domain = "" then pageHostname else c.domain
    company := classification.company
    purpose := classification.purpose
    risk := finalRisk
    lifetime := lifetime
    isThirdParty := isThirdParty
    isSecure := c.secure
    isHttpOnly := c.httpOnly
    sameSite := (c.sameSite.getD "None")
    attributeIssues := attributeIssues }

/-- `riskOrder` (cookieAnalysis.js line 167): `{high:0, critical:0,
medium:1, low:2, safe:3}` with `?? 3` for unknown keys. -/
def riskOrderIdx (r : String) : Nat :=
  if r = "high" then 0
  else if r = "critical" then 0
  else if r = "medium" then 1
  else if r = "low" then 2
  else if r = "safe" then 3
  else 3

/-- Bump a counting object key (model of `m[k] = (m[k] || 0) + 1` on a JS
object used as a map, preserving key insertion order). -/
def bumpCount (m : List (String × Nat)) (k : String) : List (String × Nat) :=
  match m with
  | [] => [ (k, 1) ]
  | (k0, n) :: rest =>
    if k0 = k then (k0, n + 1) :: rest else (k0, n) :: bumpCount rest k

structure CookieSummary where
  total : Nat
  thirdPartyTracking : Nat
  byPurpose : List (String × Nat)
  byRisk : List (String × Nat)
  securityIssues : Nat
  longestLivedDays : Int
  longestLivedName : Option String
deriving Repr, DecidableEq

structure CookieReport where
  cookies : List CookieRecord
  summary : CookieSummary
deriving Repr, DecidableEq

/-- Shallow embedding of `analyzeCookies(cookies, pageHostname)`
(cookieAnalysis.js lines 134-201).  `now` is the `Date.now()/1000` value the
lifetime computation reads.  JS `Array.prototype.sort` with a subtraction
comparator is a stable sort, modelled by `List.mergeSort`.  In the
empty-cookies early return the JS summary object simply omits
`thirdPartyTracking` and the longest-lived fields; the model returns their
defaults (`0` / `none`). -/
def analyzeCookies (cookies : List Cookie) (pageHostname : String)
    (now : Int) : CookieReport :=
  if cookies.isEmpty then
    { cookies := []
      summary := { total := 0, thirdPartyTracking := 0, byPurpose := [],
                   byRisk := [], securityIssues := 0, longestLivedDays := 0,
                   longestLivedName := none } }
  else
    let analyzed := cookies.map (fun c => analyzeOneCookie c pageHostname now)
    let analyzed := analyzed.mergeSort
      (fun a b => riskOrderIdx a.risk ≤ riskOrderIdx b.risk)
    let byPurpose := analyzed.foldl (fun m c => bumpCount m c.purpose) []
    let byRisk := analyzed.foldl (fun m c => bumpCount m c.risk) []
    let securityIssues := (analyzed.map (fun c => c.attributeIssues.length)).sum
    let thirdPartyTracking :=
      analyzed.countP (fun c => c.isThirdParty && c.purpose = "tracking")
    let longestLived :=
      ((analyzed.filter (fun c => !(c.lifetime.days = none) &&
          (c.lifetime.days.getD 0) > 0)).mergeSort
        (fun a b => (b.lifetime.days.getD 0) ≤ (a.lifetime.days.getD 0))).head?
    { cookies := analyzed.take 30
      summary := { total := analyzed.length
                   thirdPartyTracking := thirdPartyTracking
                   byPurpose := byPurpose
                   byRisk := byRisk
                   securityIssues := securityIssues
                   longestLivedDays :=
                     match longestLived with
                     | some c => c.lifetime.days.getD 0
                     | none => 0
                   longestLivedName :=
                     match longestLived with
                     | some c => if c.name = "" then none else some c.name
                     | none => none } }

/-! ## Crawl data model (the aggregate record `crawlWebsite` returns,
crawler.js lines 677-694) -/

structure BeaconCall where
  url : String
  hasData : Bool
deriving Repr, DecidableEq

structure Fingerprinting where
  canvasFingerprint : Bool
  webglFingerprint : Bool
  fontFingerprint : Bool
  keylogger : Bool
  formSnooping : Bool
  serviceWorker : Bool
  beaconCalls : List BeaconCall
deriving Repr, DecidableEq

structure StorageData where
  localStorage : List (String × String)
  sessionStorage : List (String × String)
deriving Repr, DecidableEq

structure CspAnalysis where
  present : Bool
  trustedDomains : List String
  allowsUnsafeInline : Bool
  allowsUnsafeEval : Bool
  rawPolicy : String
deriving Repr, DecidableEq

structure RedirectHop where
  redirFrom : String
  redirTo : String
  status : Int
deriving Repr, DecidableEq

structure CrawlData where
  url : String
  isHttps : Bool
  scriptSrcs : List String
  cookies : List Cookie
  externalDomains : List String
  allRequestedUrls : List String
  fingerprinting : Fingerprinting
  storageData : StorageData
  trackingParamsFound : List String
  webSockets : List String
  redirectChains : List RedirectHop
  inlineTrackerScripts : Nat
  cspAnalysis : CspAnalysis
  pagesCrawled : List String
  pageText : String
deriving Repr, DecidableEq

/-! ## Privacy analysis engine (analyzer.js) -/

/-- `CDN_ALLOWLIST` (analyzer.js lines 11-33). -/
def CDN_ALLOWLIST : List String :=
  [ "gstatic.com", "googleapis.com", "fonts.googleapis.com",
    "fonts.gstatic.com", "ajax.googleapis.com", "cloudflare.com",
    "cloudflareinsights.com", "jsdelivr.net", "cdn.jsdelivr.net",
    "unpkg.com", "cdnjs.cloudflare.com", "bootstrapcdn.com",
    "stackpath.bootstrapcdn.com", "maxcdn.bootstrapcdn.com",
    "code.jquery.com", "assets.website-files.com", "amazonaws.com",
    "azureedge.net", "akamaihd.net", "fastly.net", "fastly.com" ]

/-- `isCDN(hostname)` (analyzer.js lines 35-37). -/
def isCDN (hostname : String) : Bool :=
  CDN_ALLOWLIST.any (fun cdn => hostname = cdn || strEnds hostname ("." ++ cdn))

structure TrackerPattern where
  keyword : String
  company : String
  risk : String
deriving Repr, DecidableEq

/-- `TRACKER_PATTERNS` (analyzer.js lines 39-69), in source order. -/
def TRACKER_PATTERNS : List TrackerPattern :=
  [ ⟨ "google-analytics", "Google Analytics", "medium" ⟩,
    ⟨ "googletagmanager", "Google Tag Manager", "medium" ⟩,
    ⟨ "doubleclick", "Google DoubleClick", "high" ⟩,
    ⟨ "googlesyndication", "Google AdSense", "high" ⟩,
    ⟨ "facebook.net", "Meta / Facebook", "high" ⟩,
    ⟨ "connect.facebook", "Meta / Facebook", "high" ⟩,
    ⟨ "fbevents", "Meta Pixel", "high" ⟩,
    ⟨ "hotjar", "Hotjar", "medium" ⟩,
    ⟨ "mixpanel", "Mixpanel", "medium" ⟩,
    ⟨ "segment.io", "Segment", "medium" ⟩,
    ⟨ "amplitude", "Amplitude", "medium" ⟩,
    ⟨ "heap.io", "Heap Analytics", "medium" ⟩,
    ⟨ "fullstory", "FullStory", "high" ⟩,
    ⟨ "logrocket", "LogRocket", "high" ⟩,
    ⟨ "intercom", "Intercom", "low" ⟩,
    ⟨ "hubspot", "HubSpot", "low" ⟩,
    ⟨ "ads.twitter", "Twitter Ads", "high" ⟩,
    ⟨ "linkedin.com/px", "LinkedIn Pixel", "high" ⟩,
    ⟨ "quantserve", "Quantcast", "high" ⟩,
    ⟨ "scorecardresearch", "Comscore", "medium" ⟩,
    ⟨ "outbrain", "Outbrain", "medium" ⟩,
    ⟨ "taboola", "Taboola", "medium" ⟩,
    ⟨ "criteo", "Criteo", "high" ⟩,
    ⟨ "adsrvr", "The Trade Desk", "high" ⟩,
    ⟨ "moatads", "Moat Analytics", "medium" ⟩,
    ⟨ "pixel", "Tracking Pixel", "medium" ⟩,
    ⟨ "analytics", "Analytics Service", "low" ⟩,
    ⟨ "tracking", "Tracking Service", "high" ⟩,
    ⟨ "beacon", "Tracking Beacon", "medium" ⟩ ]

structure TrackerRecord where
  company : String
  url : String
  risk : String
deriving Repr, DecidableEq

/-- `detectTrackers(scriptSrcs, allRequestedUrls)` (analyzer.js lines
85-111): deduplicated URL union, CDN hosts and unparseable URLs skipped,
first matching pattern per URL, first record per company, insertion order
preserved (a JS `Map`). -/
def detectTrackers (scriptSrcs allRequestedUrls : List String) :
    List TrackerRecord :=
  let allUrls := dedupKeepOrder (scriptSrcs ++ allRequestedUrls)
  allUrls.foldl
    (fun detected url =>
      match urlHostname url with
      | none => detected
      | some h =>
        if isCDN h then detected
        else
          match TRACKER_PATTERNS.find?
              (fun p => strHas (strLower url) p.keyword) with
          | none => detected
          | some p =>
            if detected.any (fun t => t.company = p.company) then detected
            else detected ++
              [ { company := p.company, url := jsSlice url 120,
                  risk := p.risk } ])
    []

structure DarkPatternGroup where
  words : List String
  label : String
deriving Repr, DecidableEq

/-- `DARK_PATTERN_KEYWORDS` (analyzer.js lines 71-77). -/
def DARK_PATTERN_KEYWORDS : List DarkPatternGroup :=
  [ ⟨ [ "limited time", "expires soon", "only today", "act now", "hurry",
        "ending soon" ], "Urgency Language" ⟩,
    ⟨ [ "subscribe now", "don\x27t miss out", "exclusive offer",
        "members only", "sign up today" ], "Subscription Pressure" ⟩,
    ⟨ [ "you\x27ve been selected", "you\x27re a winner", "congratulations",
        "you have been chosen" ], "False Personalization" ⟩,
    ⟨ [ "cancel anytime", "no commitment", "free trial",
        "no credit card required" ], "Misleading Terms" ⟩,
    ⟨ [ "by continuing you agree", "continued use means",
        "using this site you consent" ], "Implied Consent" ⟩ ]

structure DarkPatternHit where
  label : String
  examples : List String
deriving Repr, DecidableEq

/-- `detectDarkPatterns(pageText)` (analyzer.js lines 113-123). -/
def detectDarkPatterns (pageText : String) : List DarkPatternHit :=
  let lower := strLower pageText
  DARK_PATTERN_KEYWORDS.foldl
    (fun found g =>
      let matched := g.words.filter (fun w => strHas lower w)
      if matched.isEmpty then found
      else found ++ [ { label := g.label, examples := matched.take 3 } ])
    []

/-- `TRACKING_STORAGE_KEYS` (analyzer.js lines 80-83). -/
def TRACKING_STORAGE_KEYS : List String :=
  [ "_ga", "amplitude", "mixpanel", "fbp", "fbc", "_hjid", "ajs_user",
    "ajs_anonymous", "heap_", "intercom", "drift", "hs-", "__utmz" ]

structure StorageAnalysis where
  localStorageKeys : Nat
  sessionStorageKeys : Nat
  trackingKeysFound : List String
deriving Repr, DecidableEq

/-- `analyzeStorage(storageData)` (analyzer.js lines 128-149). -/
def analyzeStorage (storageData : StorageData) : StorageAnalysis :=
  let allKeys := storageData.localStorage.map Prod.fst ++
    storageData.sessionStorage.map Prod.fst
  let findings := allKeys.filter
    (fun key => TRACKING_STORAGE_KEYS.any (fun p => strHas (strLower key) p))
  { localStorageKeys := storageData.localStorage.length
    sessionStorageKeys := storageData.sessionStorage.length
    trackingKeysFound := dedupKeepOrder findings }

structure Signal where
  type : String
  category : String
  message : String
deriving Repr, DecidableEq

/-- `buildSecuritySignals(crawlData, trackers)` (analyzer.js lines 154-253),
with the signal records emitted in source order. -/
def buildSecuritySignals (crawlData : CrawlData)
    (trackers : List TrackerRecord) : List Signal :=
  let fp := crawlData.fingerprinting
  let nonCdnDomains := crawlData.externalDomains.filter (fun d => !isCDN d)
  let highRisk := trackers.filter (fun t => t.risk = "high")
  (if !crawlData.isHttps then
    [ ⟨ "danger", "Transport",
        "Site uses HTTP — traffic is unencrypted and can be intercepted." ⟩ ]
   else
    [ ⟨ "safe", "Transport",
        "Site uses HTTPS — traffic is encrypted in transit." ⟩ ]) ++
  (if !crawlData.cspAnalysis.present then
    [ ⟨ "warning", "Headers",
        "No Content-Security-Policy header found — site has no script execution controls." ⟩ ]
   else
    (if crawlData.cspAnalysis.allowsUnsafeInline then
      [ ⟨ "warning", "Headers",
          "CSP allows \x27unsafe-inline\x27 scripts — weakens script injection protection." ⟩ ]
     else []) ++
    (if crawlData.cspAnalysis.allowsUnsafeEval then
      [ ⟨ "warning", "Headers",
          "CSP allows \x27unsafe-eval\x27 — allows dynamic code execution by scripts." ⟩ ]
     else []) ++
    (if !crawlData.cspAnalysis.allowsUnsafeInline &&
        !crawlData.cspAnalysis.allowsUnsafeEval then
      [ ⟨ "safe", "Headers",
          "Content-Security-Policy is present and properly restrictive." ⟩ ]
     else [])) ++
  (if fp.canvasFingerprint then
    [ ⟨ "danger", "Fingerprinting",
        "Canvas fingerprinting detected — browser renders hidden graphics to create a unique device ID." ⟩ ]
   else []) ++
  (if fp.webglFingerprint then
    [ ⟨ "danger", "Fingerprinting",
        "WebGL fingerprinting detected — GPU capabilities used to identify your device." ⟩ ]
   else []) ++
  (if fp.fontFingerprint then
    [ ⟨ "warning", "Fingerprinting",
        "Font fingerprinting detected — installed fonts enumerated to build a device profile." ⟩ ]
   else []) ++
  (if fp.keylogger then
    [ ⟨ "danger", "Input Monitoring",
        "Global keyboard listener detected — scripts may capture keystrokes across the page." ⟩ ]
   else []) ++
  (if fp.formSnooping then
    [ ⟨ "warning", "Input Monitoring",
        "Form field access detected — scripts are reading input field values." ⟩ ]
   else []) ++
  (if fp.beaconCalls.length > 0 then
    [ ⟨ "warning", "Network",
        toString fp.beaconCalls.length ++
          " sendBeacon() call(s) detected — data sent to servers even after page closes." ⟩ ]
   else []) ++
  (if crawlData.webSockets.length > 0 then
    [ ⟨ "warning", "Network",
        toString crawlData.webSockets.length ++
          " WebSocket connection(s) — persistent data channels that bypass standard request logging." ⟩ ]
   else []) ++
  (if fp.serviceWorker then
    [ ⟨ "warning", "Browser",
        "Service Worker registered — can intercept requests and track offline behavior." ⟩ ]
   else []) ++
  (if crawlData.redirectChains.length > 3 then
    [ ⟨ "warning", "Network",
        toString crawlData.redirectChains.length ++
          " redirect(s) detected — common in tracking pixel chains." ⟩ ]
   else []) ++
  (if crawlData.trackingParamsFound.length > 0 then
    [ ⟨ "warning", "Network",
        "Tracking parameters found in requests: " ++
          String.intercalate ", " crawlData.trackingParamsFound ++ "." ⟩ ]
   else []) ++
  (if crawlData.cookies.length > 20 then
    [ ⟨ "warning", "Cookies",
        toString crawlData.cookies.length ++
          " cookies set — excessive cookie usage." ⟩ ]
   else if crawlData.cookies.length > 0 then
    [ ⟨ "info", "Cookies",
        toString crawlData.cookies.length ++ " cookie(s) detected." ⟩ ]
   else []) ++
  (if crawlData.inlineTrackerScripts > 0 then
    [ ⟨ "warning", "Scripts",
        toString crawlData.inlineTrackerScripts ++
          " inline script(s) contain tracker initialization code." ⟩ ]
   else []) ++
  (if nonCdnDomains.length > 10 then
    [ ⟨ "danger", "Network",
        toString nonCdnDomains.length ++
          " third-party (non-CDN) domains contacted — very high data sharing exposure." ⟩ ]
   else if nonCdnDomains.length > 5 then
    [ ⟨ "warning", "Network",
        toString nonCdnDomains.length ++
          " third-party (non-CDN) domains contacted." ⟩ ]
   else if nonCdnDomains.length > 0 then
    [ ⟨ "info", "Network",
        toString nonCdnDomains.length ++
          " third-party domain(s) contacted (CDNs excluded)." ⟩ ]
   else []) ++
  (if highRisk.length > 0 then
    [ ⟨ "danger", "Trackers",
        toString highRisk.length ++ " high-risk tracker(s): " ++
          String.intercalate ", " (highRisk.map (fun t => t.company)) ++ "." ⟩ ]
   else [])

/-- `calculateScore(crawlData, trackers)` (analyzer.js lines 258-277):
sequential deductions from 100, clamped into `[0, 100]` at the end. -/
def calculateScore (crawlData : CrawlData) (trackers : List TrackerRecord) :
    Int :=
  let fp := crawlData.fingerprinting
  let score : Int := 100
  let score := score - trackers.length * 8
  let score := if crawlData.cookies.length > 20 then score - 10 else score
  let score := if !crawlData.isHttps then score - 20 else score
  let score := if fp.canvasFingerprint then score - 15 else score
  let score := if fp.webglFingerprint then score - 10 else score
  let score := if fp.fontFingerprint then score - 8 else score
  let score := if fp.keylogger then score - 15 else score
  let score := if fp.formSnooping then score - 8 else score
  let score := if fp.beaconCalls.length > 0 then score - 8 else score
  let score := if fp.serviceWorker then score - 5 else score
  let score := if crawlData.trackingParamsFound.length > 0 then score - 10 else score
  let score := if !crawlData.cspAnalysis.present then score - 5 else score
  let score := if crawlData.inlineTrackerScripts > 0 then score - 5 else score
  max 0 (min 100 score)

/-- `generateSummary(score, trackers, crawlData)` (analyzer.js lines
279-296). -/
def generateSummary (score : Int) (trackers : List TrackerRecord)
    (crawlData : CrawlData) : String :=
  let domain := (urlHostname crawlData.url).getD crawlData.url
  let fp := crawlData.fingerprinting
  let fingerprintingActive := fp.canvasFingerprint || fp.webglFingerprint ||
    fp.fontFingerprint
  let pagesNote :=
    if crawlData.pagesCrawled.length > 1 then
      " Analysis covered " ++ toString crawlData.pagesCrawled.length ++ " pages."
    else ""
  if score ≥ 80 then
    domain ++ " has a strong privacy posture. " ++
      (if trackers.length = 0 then "No trackers detected"
       else "Only " ++ toString trackers.length ++ " tracker(s) found") ++
      ", no fingerprinting, and HTTPS is in use." ++ pagesNote
  else if score ≥ 60 then
    domain ++ " has moderate privacy risks. " ++ toString trackers.length ++
      " tracker(s) detected" ++
      (if fingerprintingActive then ", and browser fingerprinting is active"
       else "") ++ "." ++ pagesNote ++ " Consider a tracker-blocking extension."
  else if score ≥ 40 then
    domain ++ " has elevated privacy risks. " ++ toString trackers.length ++
      " tracker(s), " ++ toString crawlData.cookies.length ++ " cookies" ++
      (if fingerprintingActive then ", and active fingerprinting" else "") ++
      " were found." ++ pagesNote
  else
    domain ++ " poses serious privacy risks. " ++ toString trackers.length ++
      " tracker(s), " ++ toString crawlData.externalDomains.length ++
      " third-party domains" ++
      (if fingerprintingActive then ", fingerprinting" else "") ++
      (if fp.keylogger then ", and a global keylogger" else "") ++
      " were detected." ++ pagesNote ++ " Exercise caution."

structure AnalysisMeta where
  url : String
  isHttps : Bool
  cookieCount : Nat
  externalDomainCount : Nat
  totalDomainCount : Nat
  externalDomains : List String
  cdnDomains : List String
  scriptCount : Nat
  pagesCrawled : List String
  webSocketCount : Nat
  redirectCount : Nat
  trackingParams : List String
  csp : CspAnalysis
  analyzedAt : String
deriving Repr, DecidableEq

structure AnalysisResult where
  score : Int
  trackers : List TrackerRecord
  signals : List Signal
  summary : String
  darkPatterns : List DarkPatternHit
  fingerprinting : Fingerprinting
  storageAnalysis : StorageAnalysis
  meta : AnalysisMeta
deriving Repr, DecidableEq

/-- Shallow embedding of `analyzePrivacy(crawlData)` (analyzer.js lines
298-331).  The wall-clock read `new Date().toISOString()` that the source
stores in `meta.analyzedAt` is the explicit `now` parameter. -/
def analyzePrivacy (crawlData : CrawlData) (now : String) : AnalysisResult :=
  let trackers := detectTrackers crawlData.scriptSrcs crawlData.allRequestedUrls
  let signals := buildSecuritySignals crawlData trackers
  let score := calculateScore crawlData trackers
  let summary := generateSummary score trackers crawlData
  let darkPatterns := detectDarkPatterns crawlData.pageText
  let storageAnalysis := analyzeStorage crawlData.storageData
  { score := score
    trackers := trackers
    signals := signals
    summary := summary
    darkPatterns := darkPatterns
    fingerprinting := crawlData.fingerprinting
    storageAnalysis := storageAnalysis
    meta := { url := crawlData.url
              isHttps := crawlData.isHttps
              cookieCount := crawlData.cookies.length
              externalDomainCount :=
                (crawlData.externalDomains.filter (fun d => !isCDN d)).length
              totalDomainCount := crawlData.externalDomains.length
              externalDomains :=
                (crawlData.externalDomains.filter (fun d => !isCDN d)).take 20
              cdnDomains := crawlData.externalDomains.filter (fun d => isCDN d)
              scriptCount := crawlData.scriptSrcs.length
              pagesCrawled := crawlData.pagesCrawled
              webSocketCount := crawlData.webSockets.length
              redirectCount := crawlData.redirectChains.length
              trackingParams := crawlData.trackingParamsFound
              csp := crawlData.cspAnalysis
              analyzedAt := now } }

/-- `scoreToRiskLevel(score)` (worker.js lines 13-18). -/
def scoreToRiskLevel (score : Int) : String :=
  if score ≥ 80 then "LOW"
  else if score ≥ 60 then "MODERATE"
  else if score ≥ 40 then "ELEVATED"
  else "HIGH"

/-- Claim-side restatement of the privacy-score deduction table
(spec §4.I "Privacy score"), as one sum. -/
def specScoreDeductions (crawlData : CrawlData)
    (trackers : List TrackerRecord) : Int :=
  let fp := crawlData.fingerprinting
  8 * trackers.length +
    (if crawlData.cookies.length > 20 then 10 else 0) +
    (if !crawlData.isHttps then 20 else 0) +
    (if fp.canvasFingerprint then 15 else 0) +
    (if fp.webglFingerprint then 10 else 0) +
    (if fp.fontFingerprint then 8 else 0) +
    (if fp.keylogger then 15 else 0) +
    (if fp.formSnooping then 8 else 0) +
    (if fp.beaconCalls.length > 0 then 8 else 0) +
    (if fp.serviceWorker then 5 else 0) +
    (if crawlData.trackingParamsFound.length > 0 then 10 else 0) +
    (if !crawlData.cspAnalysis.present then 5 else 0) +
    (if crawlData.inlineTrackerScripts > 0 then 5 else 0)

/-! ## Navigation failure detection (crawler.js lines 191-255, 477-497) -/

/-- The main-document response as Playwright reports it
(`response.status()`, `response.url()`); `page.goto` may also resolve with
no response object at all, modelled as `Option NavResponse` below. -/
structure NavResponse where
  status : Int
  url : String
deriving Repr, DecidableEq

structure PageRequest where
  url : String
  method : String
  resourceType : String
  trackingParams : List String
  hasPostData : Bool
deriving Repr, DecidableEq

/-- `CHROMIUM_ERROR_MARKERS` (crawler.js lines 225-237). -/
def CHROMIUM_ERROR_MARKERS : List String :=
  [ "ERR_NAME_NOT_RESOLVED", "ERR_CONNECTION_REFUSED",
    "ERR_CONNECTION_TIMED_OUT", "ERR_TIMED_OUT", "ERR_ADDRESS_UNREACHABLE",
    "ERR_INTERNET_DISCONNECTED", "ERR_EMPTY_RESPONSE", "chrome-error://",
    "neterror", "jserrorpage", "dns-not-found" ]

/-- The five failure signals of `detectNavigationFailure`, in source order.
`content` is the settled page content (`page.content()` with its
error-swallowing `.catch(() => '')` already applied). -/
def navFailureSignals (response : Option NavResponse)
    (requests : List PageRequest) (content : String) : List String :=
  (if response.isNone then [ "NO_RESPONSE" ] else []) ++
  (match response with
   | some r => if r.status ≥ 400 then [ "HTTP_" ++ toString r.status ] else []
   | none => []) ++
  (let responseUrl := (response.map (fun r => r.url)).getD ""
   if strStarts responseUrl "chrome-error://" ||
      strStarts responseUrl "about:" ||
      strStarts responseUrl "data:text/html" then
     [ "CHROME_INTERNAL_PAGE" ]
   else []) ++
  (let realRequests := requests.filter (fun r => !(strStarts r.url "data:"))
   if realRequests.length ≤ 1 then [ "NO_NETWORK_ACTIVITY" ] else []) ++
  (if CHROMIUM_ERROR_MARKERS.any (fun marker => strHas content marker) then
     [ "CHROMIUM_ERROR_PAGE" ]
   else [])

/-- Shallow embedding of `detectNavigationFailure(page, response, requests,
url, isHomepage)` (crawler.js lines 191-255): throws `UNREACHABLE` when the
signal count reaches the threshold (homepage 1, sub-page 2). -/
def detectNavigationFailure (response : Option NavResponse)
    (requests : List PageRequest) (content : String) (url : String)
    (isHomepage : Bool) : Except String Unit :=
  if (navFailureSignals response requests content).length ≥
      (if isHomepage then 1 else 2) then
    .error ("UNREACHABLE:" ++
      String.intercalate "," (navFailureSignals response requests content) ++
      ":" ++ url)
  else .ok ()

/-- Claim-side count of fired signals (spec §4.H "Navigation failure
detection" lists five independent signals). -/
def specNavSignalCount (response : Option NavResponse)
    (requests : List PageRequest) (content : String) : Nat :=
  (if response.isNone then 1 else 0) +
  (match response with
   | some r => if r.status ≥ 400 then 1 else 0
   | none => 0) +
  (let responseUrl := (response.map (fun r => r.url)).getD ""
   if strStarts responseUrl "chrome-error://" ||
      strStarts responseUrl "about:" ||
      strStarts responseUrl "data:text/html" then 1
   else 0) +
  (if (requests.filter (fun r => !(strStarts r.url "data:"))).length ≤ 1
   then 1 else 0) +
  (if CHROMIUM_ERROR_MARKERS.any (fun marker => strHas content marker)
   then 1 else 0)

structure InlineScript where
  length : Nat
  hasTrackerSignature : Bool
deriving Repr, DecidableEq

structure ScriptData where
  external : List String
  inline : List InlineScript
deriving Repr, DecidableEq

structure PageResult where
  url : String
  requests : List PageRequest
  webSockets : List String
  redirectChains : List RedirectHop
  fingerprintSignals : Fingerprinting
  scriptData : ScriptData
  storageData : StorageData
  internalLinks : List String
  pageText : String
deriving Repr, DecidableEq

/-- Shallow embedding of the control flow of `crawlSinglePage` (crawler.js
lines 440-559).  `gotoResult` is the outcome of `page.goto`: an exception
(`.error`), or a possibly-null response object.  The browser-side
observations (collected requests, evaluated scripts, storage, links, text)
are explicit inputs; a driver exception during `page.goto` is re-thrown as
`UNREACHABLE:PLAYWRIGHT_THROW` before any of them are consulted, and the
post-settle multi-signal detection runs next. -/
def crawlSinglePage (gotoResult : Except String (Option NavResponse))
    (requests : List PageRequest) (webSockets : List String)
    (redirectChains : List RedirectHop) (content : String)
    (fingerprintSignals : Fingerprinting) (scriptData : ScriptData)
    (storageData : StorageData) (internalLinks : List String)
    (pageText : String) (url : String) (isHomepage : Bool) :
    Except String PageResult :=
  match gotoResult with
  | .error e => .error ("UNREACHABLE:PLAYWRIGHT_THROW:" ++ e)
  | .ok response =>
    match detectNavigationFailure response requests content url isHomepage with
    | .error e => .error e
    | .ok _ =>
      .ok { url := url
            requests := requests
            webSockets := webSockets
            redirectChains := redirectChains
            fingerprintSignals := fingerprintSignals
            scriptData := scriptData
            storageData := storageData
            internalLinks := dedupKeepOrder internalLinks
            pageText := pageText }

/-! ## Job store and worker (worker.js / part_002) -/

inductive JobStatus where
  | PENDING
  | RUNNING
  | SUCCESS
  | FAILED
deriving Repr, DecidableEq

structure ScanJobRow where
  id : String
  targetUrl : String
  status : JobStatus
  errorMessage : Option String
  startedAt : Option String
  completedAt : Option String
deriving Repr, DecidableEq

/-- A `scan_results` row as created by the worker's success transaction
(worker.js lines 50-69). -/
structure ScanResultRow where
  scanJobId : String
  score : Int
  riskLevel : String
  summary : String
  trackerCount : Nat
  cookieCount : Nat
  externalDomains : Nat
  isHttps : Bool
  pagesCrawled : Nat
  hasCsp : Bool
  canvasFingerprint : Bool
  webglFingerprint : Bool
  fontFingerprint : Bool
  keylogger : Bool
  rawData : AnalysisResult
deriving Repr, DecidableEq

structure DbState where
  jobs : List ScanJobRow
  results : List ScanResultRow
deriving Repr, DecidableEq

inductive DbError where
  | recordNotFound
deriving Repr, DecidableEq

/-- Model of Prisma `db.scanJob.update({ where: { id }, data })`: throws
(`P2025`, record not found) when no row with the given id exists. -/
def updateScanJob (db : DbState) (id : String)
    (f : ScanJobRow → ScanJobRow) : Except DbError DbState :=
  if db.jobs.any (fun r => r.id = id) then
    .ok { db with jobs := db.jobs.map (fun r => if r.id = id then f r else r) }
  else .error .recordNotFound

inductive WorkerError where
  | dbError (e : DbError)
  | crawlError (msg : String)
deriving Repr, DecidableEq

/-- Shallow embedding of `processScanJob(job)` (worker.js lines 21-83) for a
queue payload `{jobId, url}`.  `crawlResult` is the outcome of
`crawlWebsite(url)` (crawl and analysis inputs are captured data), `now`
models the wall clock.  The source updates the Job row to RUNNING with no
existence check, so a missing row surfaces as a thrown DB error; the
success path persists the result row and the SUCCESS transition in one
transaction. -/
def processScanJob (jobId url : String)
    (crawlResult : Except String CrawlData) (now : String) (db : DbState) :
    Except WorkerError (DbState × Int) :=
  match updateScanJob db jobId
      (fun r => { r with status := .RUNNING, startedAt := some now }) with
  | .error e => .error (.dbError e)
  | .ok db =>
    match crawlResult with
    | .error msg => .error (.crawlError msg)
    | .ok crawlData =>
      let analysis := analyzePrivacy crawlData now
      let resultRow : ScanResultRow :=
        { scanJobId := jobId
          score := analysis.score
          riskLevel := scoreToRiskLevel analysis.score
          summary := analysis.summary
          trackerCount := analysis.trackers.length
          cookieCount := analysis.meta.cookieCount
          externalDomains := analysis.meta.externalDomainCount
          isHttps := analysis.meta.isHttps
          pagesCrawled := analysis.meta.pagesCrawled.length
          hasCsp := analysis.meta.csp.present
          canvasFingerprint := analysis.fingerprinting.canvasFingerprint
          webglFingerprint := analysis.fingerprinting.webglFingerprint
          fontFingerprint := analysis.fingerprinting.fontFingerprint
          keylogger := analysis.fingerprinting.keylogger
          rawData := analysis }
      match updateScanJob db jobId
          (fun r => { r with status := .SUCCESS, completedAt := some now }) with
      | .error e => .error (.dbError e)
      | .ok db =>
        .ok ({ db with results := db.results ++ [ resultRow ] }, analysis.score)

/-- The data BullMQ hands the `failed` listener (worker.js line 112):
`job` may be undefined, so every projection is optional in the source
(`job?.data?.jobId`, `job?.opts?.attempts ?? 3`). -/
structure FailedJobInfo where
  bullId : Option String
  jobId : Option String
  url : Option String
  attemptsMade : Nat
  optsAttempts : Option Nat
deriving Repr, DecidableEq

structure DlqRecord where
  originalJobId : Option String
  jobId : Option String
  url : Option String
  error : Option String
  attempts : Nat
  failedAt : String
deriving Repr, DecidableEq

structure WorkerState where
  db : DbState
  dlq : List DlqRecord
deriving Repr, DecidableEq

/-- Shallow embedding of the `scanWorker.on('failed')` handler (worker.js
lines 112-151).  `errMessage` models `err.message` (optional, as the source
guards it with `?.`); `now` models the wall clock.  On a non-final attempt
the handler only logs and returns; on the final attempt it appends the DLQ
record and then marks the row FAILED with the message truncated to 1000
characters — both writes have `.catch` guards, so a missing row leaves the
store unchanged without re-throwing. -/
def scanWorkerOnFailed (job : FailedJobInfo) (errMessage : Option String)
    (now : String) (st : WorkerState) : WorkerState :=
  let isLastAttempt := job.attemptsMade ≥ (job.optsAttempts.getD 3)
  if isLastAttempt then
    let st := { st with dlq := st.dlq ++
      [ { originalJobId := job.bullId, jobId := job.jobId, url := job.url,
          error := errMessage, attempts := job.attemptsMade,
          failedAt := now } ] }
    match job.jobId with
    | some id =>
      match updateScanJob st.db id
          (fun r => { r with
            status := .FAILED
            errorMessage :=
              some ((errMessage.map (fun m => jsSlice m 1000)).getD
                "Unknown error")
            completedAt := some now }) with
      | .ok db2 => { st with db := db2 }
      | .error _ => st
    | none => st
  else st

/-! ## Admission pipeline and the dedup race (routes/analyze.js lines 76-149)

Interleaving model of two concurrent `POST /analyze` admissions for the same
canonical URL, covering steps 3-5 of the route (the Redis `SET NX` dedup
lock, the PENDING/RUNNING lookup on lock failure, ScanJob creation, queue
enqueue) in the situation the in-window DB dedup check (step 2) found no
recent SUCCESS — the race window the in-flight lock exists for.  Each
`admStep` is one await-separated action of the handler; the scheduler may
interleave the two requests arbitrarily. -/

structure AdmJob where
  id : Nat
  url : String
  status : JobStatus
deriving Repr, DecidableEq

structure AdmState where
  lock : Bool
  jobs : List AdmJob
  queue : List Nat
  nextId : Nat
deriving Repr, DecidableEq

/-- Control point of one admission request.  `viaLock` records whether the
request reached job creation by acquiring the `SET NX` lock (`true`) or by
falling through the failed-lock branch because no PENDING/RUNNING job was
visible (`false`). -/
inductive AdmPhase where
  | ready
  | findActive
  | createJob (viaLock : Bool)
  | enqueue (viaLock : Bool) (jobId : Nat)
  | accepted (viaLock : Bool) (jobId : Nat)
  | coalesced (jobId : Nat)
deriving Repr, DecidableEq

/-- `db.scanJob.findFirst` for a PENDING/RUNNING job with the target URL
(analyze.js lines 86-90). -/
def findLiveJob (jobs : List AdmJob) (u : String) : Option AdmJob :=
  jobs.find? (fun j => j.url = u &&
    (j.status = JobStatus.PENDING || j.status = JobStatus.RUNNING))

/-- One handler action for the admission of URL `u`:
`ready` performs the atomic `SET NX`; on failure `findActive` either
coalesces onto a visible live job or falls through to creation; `createJob`
inserts the PENDING row; `enqueue` adds the queue payload.  Terminal phases
stutter. -/
def admStep (u : String) : AdmPhase → AdmState → AdmPhase × AdmState
  | .ready, sh =>
    if sh.lock then (.findActive, sh)
    else (.createJob true, { sh with lock := true })
  | .findActive, sh =>
    match findLiveJob sh.jobs u with
    | some j => (.coalesced j.id, sh)
    | none => (.createJob false, sh)
  | .createJob v, sh =>
    (.enqueue v sh.nextId,
      { sh with jobs := sh.jobs ++ [ ⟨ sh.nextId, u, .PENDING ⟩ ],
                nextId := sh.nextId + 1 })
  | .enqueue v id, sh =>
    (.accepted v id, { sh with queue := sh.queue ++ [ id ] })
  | .accepted v id, sh => (.accepted v id, sh)
  | .coalesced id, sh => (.coalesced id, sh)

/-- A configuration: the two request phases and the shared state. -/
abbrev AdmConfig := AdmPhase × AdmPhase × AdmState

/-- The interleaving relation: either request performs its next action. -/
inductive AdmInterleave (u : String) : AdmConfig → AdmConfig → Prop
  | left (a b : AdmPhase) (sh : AdmState) :
    AdmInterleave u (a, b, sh) ((admStep u a sh).1, b, (admStep u a sh).2)
  | right (a b : AdmPhase) (sh : AdmState) :
    AdmInterleave u (a, b, sh) (a, (admStep u b sh).1, (admStep u b sh).2)

/-- Initial configuration: lock free, no jobs, nothing queued. -/
def admInit : AdmConfig := (.ready, .ready, ⟨ false, [], [], 0 ⟩)

/-- Configurations some interleaving of the two admissions can reach. -/
def AdmReachable (u : String) (c : AdmConfig) : Prop :=
  Relation.ReflTransGen (AdmInterleave u) admInit c

/-- Number of jobs for `u` simultaneously in {PENDING, RUNNING}. -/
def liveJobCount (jobs : List AdmJob) (u : String) : Nat :=
  jobs.countP (fun j => j.url = u &&
    (j.status = JobStatus.PENDING || j.status = JobStatus.RUNNING))

/-- 1 when the request has already created its job row. -/
def phaseJobContrib : AdmPhase → Nat
  | .enqueue _ _ => 1
  | .accepted _ _ => 1
  | _ => 0

/-- 1 when the request proceeded as the holder of the `SET NX` lock. -/
def phaseLockContrib : AdmPhase → Nat
  | .createJob true => 1
  | .enqueue true _ => 1
  | .accepted true _ => 1
  | _ => 0

/-- Whether the request coalesced onto a visible live job. -/
def phaseCoalesced : AdmPhase → Bool
  | .coalesced _ => true
  | _ => false

/-- The concrete racing interleaving: request A acquires the lock; before A
creates its job row, request B fails the lock, finds no visible
PENDING/RUNNING job, and falls through to create and enqueue its own job;
then A creates and enqueues as well. -/
def admRaceFinal : AdmConfig :=
  (.accepted true 1, .accepted false 0,
    { lock := true,
      jobs := [ ⟨ 0, "https://example.com/", .PENDING ⟩,
                ⟨ 1, "https://example.com/", .PENDING ⟩ ],
      queue := [ 0, 1 ], nextId := 2 })

/-- Erase the wall-clock field of an analysis result (used to state
determinism of everything else). -/
def stripAnalyzedAt (r : AnalysisResult) : AnalysisResult :=
  { r with meta := { r.meta with analyzedAt := "" } }

/-- A minimal captured crawl record: HTTPS homepage, no cookies, no scripts,
no third-party traffic. -/
def sampleCrawlData : CrawlData :=
  { url := "https://example.com/"
    isHttps := true
    scriptSrcs := []
    cookies := []
    externalDomains := []
    allRequestedUrls := []
    fingerprinting :=
      { canvasFingerprint := false, webglFingerprint := false,
        fontFingerprint := false, keylogger := false, formSnooping := false,
        serviceWorker := false, beaconCalls := [] }
    storageData := { localStorage := [], sessionStorage := [] }
    trackingParamsFound := []
    webSockets := []
    redirectChains := []
    inlineTrackerScripts := 0
    cspAnalysis :=
      { present := false, trustedDomains := [], allowsUnsafeInline := false,
        allowsUnsafeEval := false, rawPolicy := "" }
    pagesCrawled := [ "https://example.com/" ]
    pageText := "" }

/-- A cookie carrying both Secure and HttpOnly, first-party for
`example.com`. -/
def c6CookieSecure : Cookie :=
  { name := "sessionid", domain := "example.com", expires := none,
    secure := true, httpOnly := true, sameSite := some "Lax" }

/-- A cookie with neither Secure nor HttpOnly, first-party for
`example.com`. -/
def c6CookieBare : Cookie :=
  { name := "theme", domain := "example.com", expires := none,
    secure := false, httpOnly := false, sameSite := none }


/-- The RUNNING row, failure context and states used by the C10 witness. -/
def c10RowRunning : ScanJobRow :=
  { id := "j1", targetUrl := "u", status := .RUNNING, errorMessage := none,
    startedAt := some "t0", completedAt := none }

def c10RowFailed : ScanJobRow :=
  { id := "j1", targetUrl := "u", status := .FAILED,
    errorMessage := some "boom", startedAt := some "t0",
    completedAt := some "t1" }

def c10StateBefore : WorkerState :=
  { db := { jobs := [ c10RowRunning ], results := [] }, dlq := [] }

def c10DlqRecord : DlqRecord :=
  { originalJobId := some "b1", jobId := some "j1", url := some "u",
    error := some "boom", attempts := 3, failedAt := "t1" }

def c10StateAfter : WorkerState :=
  { db := { jobs := [ c10RowFailed ], results := [] },
    dlq := [ c10DlqRecord ] }

def c10InfoAttempt1 : FailedJobInfo :=
  { bullId := some "b1", jobId := some "j1", url := some "u",
    attemptsMade := 1, optsAttempts := some 3 }

def c10InfoAttempt3 : FailedJobInfo :=
  { bullId := some "b1", jobId := some "j1", url := some "u",
    attemptsMade := 3, optsAttempts := some 3 }


/-- The inductive invariant of the two-admission interleaving model: the
number of live jobs for `u` equals the number of requests past their
creation step, and at most one request ever proceeds as lock holder. -/
def admInvariant (u : String) (c : AdmConfig) : Prop :=
  liveJobCount c.2.2.jobs u = phaseJobContrib c.1 + phaseJobContrib c.2.1 ∧
  phaseLockContrib c.1 + phaseLockContrib c.2.1 ≤ 1 ∧
  (c.2.2.lock = false →
    phaseLockContrib c.1 + phaseLockContrib c.2.1 = 0)


/-! # Theorems -/

/-- C9: for cookie lifetimes `d1 ≤ d2` (session cookies as the base case,
negative values for expired cookies), the lifetime risk bucket of `d2` is
the same or higher than that of `d1` in the order
safe < low < medium < high < critical, before any third-party/tracking
elevation. -/
theorem lifetimeRisk_monotone (d1 d2 : Option Int) (h : lifetimeLe d1 d2) :
    riskIdx (lifetimeRisk d1).risk ≤ riskIdx (lifetimeRisk d2).risk := by
  cases d1 with
  | none =>
    cases d2 with
    | none => simp [lifetimeRisk, riskIdx]
    | some b =>
      simp only [lifetimeRisk]
      split_ifs <;> simp [riskIdx]
  | some a =>
    cases d2 with
    | none => exact absurd h (by simp [lifetimeLe])
    | some b =>
      simp only [lifetimeLe] at h
      simp only [lifetimeRisk]
      split_ifs <;> first
        | decide
        | (exfalso; omega)
        | (simp [riskIdx])

/-- Witness for C9 at concrete lifetimes 10 days and 400 days. -/
theorem lifetimeRisk_monotone_witness :
    riskIdx (lifetimeRisk (some 10)).risk ≤
      riskIdx (lifetimeRisk (some 400)).risk :=
  lifetimeRisk_monotone (some 10) (some 400) (by norm_num [lifetimeLe])

/-- C2 (the code bug): the unique-local address `fd00::1` lies inside
`fc00::/7`, yet `assertNotPrivate` admits it for an innocuous hostname —
the source regex `/^fc[0-9a-f]{2}:/i` covers only `fc00::/8` even though
its own comment claims `fc00::/7`.  The sibling `fc00::1` is rejected with
`SSRF_PRIVATE_IP`, as is a private IPv4 resolution. -/
theorem assertNotPrivate_fd00_gap :
    specInFc00Slash7 "fd00::1" = true ∧
    assertNotPrivate "example.com" "fd00::1" = .ok () ∧
    assertNotPrivate "example.com" "fc00::1" = .error .SSRF_PRIVATE_IP ∧
    assertNotPrivate "example.com" "10.0.0.5" = .error .SSRF_PRIVATE_IP := by
  exact ⟨ rfl, rfl, rfl, rfl ⟩

/-- C5 (counterexample): `analyzePrivacy` stores the wall-clock reading
`new Date().toISOString()` in `meta.analyzedAt`, so two runs over the same
captured crawl record produce different outputs. -/
theorem analyzePrivacy_two_runs_differ :
    analyzePrivacy sampleCrawlData "2025-01-01T00:00:00.000Z" ≠
      analyzePrivacy sampleCrawlData "2025-01-01T00:00:01.000Z" := by
  intro h
  exact absurd (congrArg (fun r => r.meta.analyzedAt) h) (by decide)

/-- C5 (amended): apart from `meta.analyzedAt`, the analysis output is a
pure deterministic function of the captured crawl record — two runs agree
on every other field. -/
theorem analyzePrivacy_deterministic_up_to_timestamp
    (crawlData : CrawlData) (t1 t2 : String) :
    stripAnalyzedAt (analyzePrivacy crawlData t1) =
      stripAnalyzedAt (analyzePrivacy crawlData t2) := rfl

/-- C4 (the code bug): `processScanJob` updates the Job row to RUNNING with
no existence check, so when a PENDING job was deleted before its payload is
processed the worker throws a record-not-found DB error instead of treating
the payload as a no-op success — and once the attempts are exhausted the
`failed` handler does write a DLQ record for the payload. -/
theorem processScanJob_missing_row_throws :
    processScanJob "j1" "https://example.com/" (.ok sampleCrawlData)
        "2025-01-01T00:00:00.000Z" { jobs := [], results := [] } =
      .error (.dbError .recordNotFound) ∧
    (scanWorkerOnFailed
        { bullId := some "j1", jobId := some "j1",
          url := some "https://example.com/", attemptsMade := 3,
          optsAttempts := some 3 }
        (some "record not found") "2025-01-01T00:00:00.000Z"
        { db := { jobs := [], results := [] }, dlq := [] }).dlq.length = 1 :=
  ⟨ rfl, rfl ⟩

/-- C10: a failed attempt that is not the final one leaves the Job Store
and the DLQ untouched (the row keeps whatever RUNNING/startedAt state the
attempt wrote); only the final failed attempt appends the DLQ record and
marks the row FAILED with `completedAt` set and the error message truncated
to at most 1000 characters. -/
theorem scanWorkerOnFailed_frame_and_final (job : FailedJobInfo)
    (err : Option String) (now : String) (st : WorkerState) :
    (job.attemptsMade < job.optsAttempts.getD 3 →
      scanWorkerOnFailed job err now st = st) ∧
    (∀ id, job.jobId = some id → job.optsAttempts.getD 3 ≤ job.attemptsMade →
      (st.db.jobs.any (fun r => r.id = id)) = true →
      scanWorkerOnFailed job err now st =
        { db := { st.db with jobs := st.db.jobs.map (fun r =>
            if r.id = id then
              { r with
                status := .FAILED,
                errorMessage := some ((err.map
                  (fun m => jsSlice m 1000)).getD "Unknown error"),
                completedAt := some now }
            else r) },
          dlq := st.dlq ++
            [ { originalJobId := job.bullId, jobId := some id, url := job.url,
                error := err, attempts := job.attemptsMade,
                failedAt := now } ] } ∧
      ((err.map (fun m => jsSlice m 1000)).getD "Unknown error").length ≤ 1000) := by
  constructor
  · intro h
    unfold scanWorkerOnFailed
    rw [if_neg (by omega)]
  · intro id hid hlast hex
    constructor
    · unfold scanWorkerOnFailed updateScanJob
      rw [if_pos (by omega)]
      rw [hid]
      simp only []
      rw [if_pos hex]
    · cases err with
      | none => decide
      | some m =>
        simp only [Option.map_some, Option.getD_some, jsSlice]
        calc (String.mk (m.data.take 1000)).length
            = (m.data.take 1000).length := rfl
          _ ≤ 1000 := by simp [List.length_take]

/-- Witness for C10: a first-of-three failed attempt leaves the store
unchanged, and a third-of-three failed attempt appends exactly the DLQ
record and the truncated FAILED row. -/
theorem scanWorkerOnFailed_frame_and_final_witness :
    scanWorkerOnFailed c10InfoAttempt1 (some "boom") "t0" c10StateBefore =
      c10StateBefore ∧
    scanWorkerOnFailed c10InfoAttempt3 (some "boom") "t1" c10StateBefore =
      c10StateAfter := by
  constructor
  · exact (scanWorkerOnFailed_frame_and_final c10InfoAttempt1
      (some "boom") "t0" c10StateBefore).1 (by norm_num [c10InfoAttempt1])
  · have h := (scanWorkerOnFailed_frame_and_final c10InfoAttempt3
      (some "boom") "t1" c10StateBefore).2 "j1" rfl
      (by norm_num [c10InfoAttempt3]) (by decide)
    rw [h.1]
    rfl

/-- Distribute a conditional deduction over the subtraction
(`if c then x - k else x` is `x` minus the indicator deduction). -/
theorem ite_sub_eq_sub_ite (c : Prop) [Decidable c] (x k : Int) :
    (if c then x - k else x) = x - (if c then k else 0) := by
  split_ifs <;> simp

/-- C3: the privacy score is exactly 100 minus the fixed deduction table,
clamped into `[0, 100]`, and the persisted risk level is LOW / MODERATE /
ELEVATED / HIGH precisely on the score bands `≥80` / `[60,80)` / `[40,60)` /
`<40`. -/
theorem calculateScore_spec (crawlData : CrawlData)
    (trackers : List TrackerRecord) :
    calculateScore crawlData trackers =
      max 0 (min 100 (100 - specScoreDeductions crawlData trackers)) ∧
    0 ≤ calculateScore crawlData trackers ∧
    calculateScore crawlData trackers ≤ 100 ∧
    (scoreToRiskLevel (calculateScore crawlData trackers) = "LOW" ↔
      80 ≤ calculateScore crawlData trackers) ∧
    (scoreToRiskLevel (calculateScore crawlData trackers) = "MODERATE" ↔
      60 ≤ calculateScore crawlData trackers ∧
        calculateScore crawlData trackers < 80) ∧
    (scoreToRiskLevel (calculateScore crawlData trackers) = "ELEVATED" ↔
      40 ≤ calculateScore crawlData trackers ∧
        calculateScore crawlData trackers < 60) ∧
    (scoreToRiskLevel (calculateScore crawlData trackers) = "HIGH" ↔
      calculateScore crawlData trackers < 40) := by
  have hclamp : calculateScore crawlData trackers =
      max 0 (min 100 (100 - specScoreDeductions crawlData trackers)) := by
    simp only [calculateScore, specScoreDeductions, ite_sub_eq_sub_ite]
    ring_nf
  have h0 : 0 ≤ calculateScore crawlData trackers := by
    rw [hclamp]; exact le_max_left 0 _
  have h100 : calculateScore crawlData trackers ≤ 100 := by
    rw [hclamp]
    exact max_le (by norm_num) (min_le_left 100 _)
  refine ⟨ hclamp, h0, h100, ?_, ?_, ?_, ?_ ⟩ <;>
    · generalize calculateScore crawlData trackers = s at *
      unfold scoreToRiskLevel
      split_ifs <;> simp <;> omega

/-- The signal list built by `detectNavigationFailure` has exactly as many
entries as the spec's five-signal count. -/
theorem navFailureSignals_length (response : Option NavResponse)
    (requests : List PageRequest) (content : String) :
    (navFailureSignals response requests content).length =
      specNavSignalCount response requests content := by
  unfold navFailureSignals specNavSignalCount
  cases response <;>
    simp only [List.length_append, apply_ite (List.length (α := String)),
      List.length_cons, List.length_nil, Option.isNone, Option.map,
      Option.getD]

/-- `detectNavigationFailure` raises exactly when the fired-signal count
reaches the threshold for the page kind. -/
theorem detectNavigationFailure_iff (response : Option NavResponse)
    (requests : List PageRequest) (content url : String)
    (isHomepage : Bool) :
    (detectNavigationFailure response requests content url isHomepage).isOk =
        false ↔
      (if isHomepage then 1 else 2) ≤
        specNavSignalCount response requests content := by
  unfold detectNavigationFailure
  rw [← navFailureSignals_length response requests content]
  cases isHomepage <;> split_ifs with h <;>
    simp_all [Except.isOk, Except.toBool]

/-- C7: after settling, `UNREACHABLE` is declared exactly when at least one
of the five signals fires on a homepage drive, and exactly when at least
two fire on a sub-page drive; a driver exception during navigation yields
`UNREACHABLE` immediately, regardless of any signals. -/
theorem detectNavigationFailure_thresholds (response : Option NavResponse)
    (requests : List PageRequest) (content url : String) :
    ((detectNavigationFailure response requests content url true).isOk =
        false ↔ 1 ≤ specNavSignalCount response requests content) ∧
    ((detectNavigationFailure response requests content url false).isOk =
        false ↔ 2 ≤ specNavSignalCount response requests content) ∧
    (∀ (e : String) (ws : List String) (rc : List RedirectHop)
        (fp : Fingerprinting) (sd : ScriptData) (st : StorageData)
        (il : List String) (pt : String) (isHomepage : Bool),
      crawlSinglePage (.error e) requests ws rc content fp sd st il pt url
          isHomepage =
        .error ("UNREACHABLE:PLAYWRIGHT_THROW:" ++ e)) := by
  refine ⟨ ?_, ?_, fun _ _ _ _ _ _ _ _ _ => rfl ⟩
  · simpa using detectNavigationFailure_iff response requests content url true
  · simpa using detectNavigationFailure_iff response requests content url false

/-- C6: a crawl whose cookie set is exactly two first-party cookies — one
with Secure and HttpOnly, one with neither — yields a cookie report with
`securityIssues ≥ 2` and `thirdPartyTracking = 0`. -/
theorem analyzeCookies_first_party_audit (c1 c2 : Cookie) (host : String)
    (now : Int)
    (h1s : c1.secure = true) (h1h : c1.httpOnly = true)
    (h2s : c2.secure = false) (h2h : c2.httpOnly = false)
    (h1t : cookieIsThirdParty c1 host = false)
    (h2t : cookieIsThirdParty c2 host = false) :
    2 ≤ (analyzeCookies [ c1, c2 ] host now).summary.securityIssues ∧
    (analyzeCookies [ c1, c2 ] host now).summary.thirdPartyTracking = 0 := by
  have hp := List.mergeSort_perm
    ([ c1, c2 ].map (fun c => analyzeOneCookie c host now))
    (fun a b => riskOrderIdx a.risk ≤ riskOrderIdx b.risk)
  constructor
  · have e1 : (analyzeCookies [ c1, c2 ] host now).summary.securityIssues =
        ((([ c1, c2 ].map (fun c => analyzeOneCookie c host now)).mergeSort
          (fun a b => riskOrderIdx a.risk ≤ riskOrderIdx b.risk)).map
          (fun c => c.attributeIssues.length)).sum := rfl
    have hsum := (hp.map (fun c => c.attributeIssues.length)).sum_eq
    rw [e1, hsum]
    have hc2 : 2 ≤ (auditAttributes c2).length := by
      unfold auditAttributes
      rw [h2s, h2h]
      simp [apply_ite (List.length (α := String))]
    have e2 : (analyzeOneCookie c2 host now).attributeIssues =
        auditAttributes c2 := rfl
    simp only [List.map_cons, List.map_nil, List.sum_cons, List.sum_nil, e2]
    omega
  · have e1 : (analyzeCookies [ c1, c2 ] host now).summary.thirdPartyTracking =
        ((([ c1, c2 ].map (fun c => analyzeOneCookie c host now)).mergeSort
          (fun a b => riskOrderIdx a.risk ≤ riskOrderIdx b.risk)).countP
          (fun c => c.isThirdParty && c.purpose = "tracking")) := rfl
    have hcnt := hp.countP_eq
      (fun c => c.isThirdParty && c.purpose = "tracking")
    have ha1 : (analyzeOneCookie c1 host now).isThirdParty = false := h1t
    have ha2 : (analyzeOneCookie c2 host now).isThirdParty = false := h2t
    rw [e1, hcnt]
    simp [List.countP_cons, ha1, ha2]

/-- Witness for C6 at two concrete first-party cookies. -/
theorem analyzeCookies_first_party_audit_witness :
    2 ≤ (analyzeCookies [ c6CookieSecure, c6CookieBare ] "example.com"
        0).summary.securityIssues ∧
    (analyzeCookies [ c6CookieSecure, c6CookieBare ] "example.com"
        0).summary.thirdPartyTracking = 0 :=
  analyzeCookies_first_party_audit c6CookieSecure c6CookieBare "example.com"
    0 rfl rfl rfl rfl (by decide) (by decide)

/-- Reduction of the scheme splitter on an explicit `https://` prefix. -/
theorem splitScheme_https (l : List Char) :
    splitScheme ('h' :: 't' :: 't' :: 'p' :: 's' :: ':' :: '/' :: '/' :: l) =
      some ([ 'h', 't', 't', 'p', 's' ], l) := rfl

/-- Whatever the parser returns, its scheme is the lower-cased scheme
segment `splitScheme` recognised. -/
theorem parseUrlChars_scheme (l : List Char) (u : ParsedUrl)
    (h : parseUrlChars l = some u) :
    ∃ sch rest, splitScheme l = some (sch, rest) ∧
      u.scheme = ⟨sch.map Char.toLower⟩ := by
  unfold parseUrlChars at h
  cases hs : splitScheme l with
  | none => rw [hs] at h; exact absurd h (by simp)
  | some p =>
    obtain ⟨sch, rest⟩ := p
    rw [hs] at h
    refine ⟨ sch, rest, rfl, ?_ ⟩
    by_cases he : sch.isEmpty
    · simp [he] at h
    · simp only [he, Bool.false_eq_true, if_false] at h
      cases hpa : parseAuthority
          (rest.takeWhile (fun c => !(c = '/' || c = '?' || c = '#'))) with
      | none => rw [hpa] at h; exact absurd h (by simp)
      | some hp =>
        obtain ⟨host, port⟩ := hp
        rw [hpa] at h
        simp only [Option.some.injEq] at h
        rw [← h]

/-- The scheme of a successfully parsed `https://`-prefixed string. -/
theorem parseUrl_https_scheme (t : String) (u : ParsedUrl)
    (h : parseUrl ("https://" ++ t) = some u) : u.scheme = "https" := by
  have h' : parseUrlChars
      ('h' :: 't' :: 't' :: 'p' :: 's' :: ':' :: '/' :: '/' :: t.data) =
      some u := h
  obtain ⟨sch, rest, hs, hu⟩ := parseUrlChars_scheme _ _ h'
  rw [splitScheme_https] at hs
  obtain ⟨rfl, rfl⟩ : sch = [ 'h', 't', 't', 'p', 's' ] ∧ rest = t.data := by
    constructor <;> injection hs with h1 <;> simp_all
  rw [hu]
  rfl

/-- C8 (counterexample): the input `1.2.3.4` lacks a scheme, `https://1.2.3.4`
parses with a dotted hostname, yet the Validator rejects it (`URL_RAW_IP`)
rather than accepting — the claim omits the raw-IP refusal. -/
theorem normalizeUrl_rejects_raw_ip :
    hasHttpScheme (jsTrim "1.2.3.4") = false ∧
    parseUrl ("https://" ++ jsTrim "1.2.3.4") =
      some { scheme := "https", host := "1.2.3.4", port := "", rest := "" } ∧
    strHas "1.2.3.4" "." = true ∧
    normalizeUrl (some "1.2.3.4") = .error .URL_RAW_IP :=
  ⟨ rfl, rfl, rfl, rfl ⟩

/-- C8 (amended): for every schemeless input whose `https://`-prefixed form
parses with a dotted, non-IP-literal hostname, the Validator accepts and
returns the https-canonicalized form. -/
theorem normalizeUrl_schemeless_accepts (X : String) (u : ParsedUrl)
    (h0 : ¬(jsTrim X = ""))
    (h1 : hasHttpScheme (jsTrim X) = false)
    (h2 : parseUrl ("https://" ++ jsTrim X) = some u)
    (h3 : strHas u.host "." = true)
    (h4 : isIpString u.host = false) :
    normalizeUrl (some X) = .ok u.href := by
  have hX : ¬(X = "") := by
    intro he
    apply h0
    rw [he]
    rfl
  have hscheme : u.scheme = "https" := parseUrl_https_scheme _ _ h2
  have hhost : ¬(u.host = "") := by
    intro he
    rw [he] at h3
    exact absurd h3 (by decide)
  simp only [normalizeUrl]
  rw [if_neg hX]
  simp only [eq_false h0, if_false, h1, Bool.false_eq_true, h2]
  simp [hscheme, h3, h4, eq_false hhost]

/-- Witness for C8 at the concrete input `example.com`. -/
theorem normalizeUrl_schemeless_accepts_witness :
    normalizeUrl (some "example.com") = .ok "https://example.com/" := by
  have h := normalizeUrl_schemeless_accepts "example.com"
    { scheme := "https", host := "example.com", port := "", rest := "" }
    (by decide) rfl rfl rfl rfl
  exact h

theorem phaseJobContrib_le_one (p : AdmPhase) : phaseJobContrib p ≤ 1 := by
  cases p <;> simp [phaseJobContrib]

theorem phaseCoalesced_jobContrib (p : AdmPhase)
    (h : phaseCoalesced p = true) : phaseJobContrib p = 0 := by
  cases p <;> simp_all [phaseCoalesced, phaseJobContrib]

/-- Each interleaving step preserves the admission invariant. -/
theorem admInterleave_preserves (u : String) (c c' : AdmConfig)
    (h : AdmInterleave u c c') (hi : admInvariant u c) :
    admInvariant u c' := by
  cases h with
  | left a b sh =>
    unfold admInvariant at hi ⊢
    cases a with
    | ready =>
      by_cases hl : sh.lock <;>
        simp_all [admStep, phaseJobContrib, phaseLockContrib] <;> omega
    | findActive =>
      cases hfa : findLiveJob sh.jobs u <;>
        simp_all [admStep, phaseJobContrib, phaseLockContrib]
    | createJob v =>
      cases v <;>
        simp_all [admStep, phaseJobContrib, phaseLockContrib, liveJobCount,
          List.countP_append, List.countP_cons] <;> omega
    | enqueue v id =>
      cases v <;> simp_all [admStep, phaseJobContrib, phaseLockContrib]
    | accepted v id => simp_all [admStep]
    | coalesced id => simp_all [admStep]
  | right a b sh =>
    unfold admInvariant at hi ⊢
    cases b with
    | ready =>
      by_cases hl : sh.lock <;>
        simp_all [admStep, phaseJobContrib, phaseLockContrib] <;> omega
    | findActive =>
      cases hfa : findLiveJob sh.jobs u <;>
        simp_all [admStep, phaseJobContrib, phaseLockContrib]
    | createJob v =>
      cases v <;>
        simp_all [admStep, phaseJobContrib, phaseLockContrib, liveJobCount,
          List.countP_append, List.countP_cons] <;> omega
    | enqueue v id =>
      cases v <;> simp_all [admStep, phaseJobContrib, phaseLockContrib]
    | accepted v id => simp_all [admStep]
    | coalesced id => simp_all [admStep]

/-- Every reachable configuration satisfies the admission invariant. -/
theorem admReachable_invariant (u : String) (c : AdmConfig)
    (h : AdmReachable u c) : admInvariant u c := by
  induction h with
  | refl =>
    refine ⟨ rfl, by decide, fun _ => rfl ⟩
  | tail _ hstep ih => exact admInterleave_preserves u _ _ hstep ih

/-- C1 (counterexample): an interleaving of two concurrent admissions for
the same canonical URL in which the second request observes the in-flight
lock held but no PENDING/RUNNING job visible, falls through, and enqueues —
leaving two Jobs for the URL simultaneously PENDING and two queue payloads. -/
theorem admission_race_two_live_jobs :
    AdmReachable "https://example.com/" admRaceFinal ∧
    liveJobCount admRaceFinal.2.2.jobs "https://example.com/" = 2 ∧
    admRaceFinal.2.2.queue = [ 0, 1 ] := by
  refine ⟨ ?_, by decide, by decide ⟩
  refine Relation.ReflTransGen.head (AdmInterleave.left _ _ _) ?_
  refine Relation.ReflTransGen.head (AdmInterleave.right _ _ _) ?_
  refine Relation.ReflTransGen.head (AdmInterleave.right _ _ _) ?_
  refine Relation.ReflTransGen.head (AdmInterleave.right _ _ _) ?_
  refine Relation.ReflTransGen.head (AdmInterleave.right _ _ _) ?_
  refine Relation.ReflTransGen.head (AdmInterleave.left _ _ _) ?_
  refine Relation.ReflTransGen.head (AdmInterleave.left _ _ _) ?_
  exact Relation.ReflTransGen.refl

/-- C1 (amended): under arbitrary interleaving of two concurrent admissions
for canonical URL `u`, at most one request proceeds as holder of the
set-if-absent lock, and a request that coalesced onto a visible
PENDING/RUNNING job leaves at most one live Job for `u`; but a racing
request that finds the lock held with no job visible yet enqueues as well,
so up to two Jobs for `u` can be simultaneously live. -/
theorem admission_dedup_bounds (u : String) (c : AdmConfig)
    (h : AdmReachable u c) :
    liveJobCount c.2.2.jobs u ≤ 2 ∧
    ((phaseCoalesced c.1 = true ∨ phaseCoalesced c.2.1 = true) →
      liveJobCount c.2.2.jobs u ≤ 1) ∧
    phaseLockContrib c.1 + phaseLockContrib c.2.1 ≤ 1 := by
  obtain ⟨h1, h2, _⟩ := admReachable_invariant u c h
  have ha := phaseJobContrib_le_one c.1
  have hb := phaseJobContrib_le_one c.2.1
  refine ⟨ by omega, ?_, h2 ⟩
  rintro (hc | hc) <;> have := phaseCoalesced_jobContrib _ hc <;> omega

/-- Witness for C1's amended theorem at the initial configuration. -/
theorem admission_dedup_bounds_witness :
    liveJobCount admInit.2.2.jobs "https://example.com/" ≤ 2 ∧
    ((phaseCoalesced admInit.1 = true ∨
        phaseCoalesced admInit.2.1 = true) →
      liveJobCount admInit.2.2.jobs "https://example.com/" ≤ 1) ∧
    phaseLockContrib admInit.1 + phaseLockContrib admInit.2.1 ≤ 1 :=
  admission_dedup_bounds "https://example.com/" admInit
    Relation.ReflTransGen.refl
